import Mathlib

/-! A shallow embedding of the mini-rate-limiter token-bucket core: the
`TokenBucket` engine, the `MemoryStorage` reference store, and the shared
data types, together with proofs about them.

Modelling choices:
* JavaScript `number` values (token counts, timestamps, intervals) are
  modelled as exact rationals `ℚ`; `Math.floor`/`Math.ceil` are `Int.floor`/
  `Int.ceil`.
* The `async` storage-passing code is modelled by explicit state passing:
  an operation takes the store and returns its result together with the
  store it leaves behind.  `Date.now()` is an explicit `now : ℚ` argument.
* The JS `Map` backing `MemoryStorage` is modelled as an association list
  with key-based lookup; `Map.set` is modelled as delete-then-prepend,
  which has the same key/value (get/set/delete) semantics.
-/

/-- State `BucketState` from `storage/types.ts`: current token count and
the Unix timestamp (ms) of the last refill. -/
structure BucketState where
  tokens : ℚ
  lastRefill : ℚ
deriving DecidableEq, Repr

/-- Options `RateLimiterOptions` from `algorithms/types.ts`. -/
structure RateLimiterOptions where
  capacity : ℚ
  refillRate : ℚ
  refillInterval : ℚ
deriving DecidableEq, Repr

/-- Result `RateLimitResult` from `algorithms/types.ts`; `retryAfter` is
the optional field, present only when blocked. -/
structure RateLimitResult where
  allowed : Bool
  remaining : ℤ
  resetAt : ℚ
  retryAfter : Option ℤ
deriving DecidableEq, Repr

/-- Entry `StoredEntry` from `storage/memory.ts`. -/
structure StoredEntry where
  state : BucketState
  expiresAt : ℚ
deriving DecidableEq, Repr

/-- The `Map<string, StoredEntry>` backing `MemoryStorage`, as an
association list. -/
abbrev MemoryStorage : Type := List (String × StoredEntry)

namespace MemoryStorage

/-- Lookup `this.store.get(key)` on the backing map. -/
def getEntry (m : MemoryStorage) (key : String) : Option StoredEntry :=
  (List.find? (fun p => p.1 == key) m).map Prod.snd

/-- Removal `this.store.delete(key)` on the backing map. -/
def delete (m : MemoryStorage) (key : String) : MemoryStorage :=
  List.filter (fun p => p.1 != key) m

/-- Operation `MemoryStorage.get`: returns the state for `key`, or `none`
when the key is absent or its entry has expired; an expired entry is
deleted (lazy expiry).  The store the call leaves behind is returned
alongside. -/
def get (m : MemoryStorage) (now : ℚ) (key : String) :
    Option BucketState × MemoryStorage :=
  match MemoryStorage.getEntry m key with
  | none => (none, m)
  | some entry =>
    if entry.expiresAt ≤ now then (none, MemoryStorage.delete m key)
    else (some entry.state, m)

/-- Operation `MemoryStorage.set`: unconditionally overwrite `key` with
`{state, expiresAt: now + ttlMs}`. -/
def set (m : MemoryStorage) (now : ℚ) (key : String) (state : BucketState)
    (ttlMs : ℚ) : MemoryStorage :=
  (key, ⟨state, now + ttlMs⟩) :: MemoryStorage.delete m key

end MemoryStorage

namespace TokenBucket

/-- TTL computed in the `TokenBucket` constructor:
`Math.ceil((capacity / refillRate) * refillInterval) * 2`. -/
def ttlMs (o : RateLimiterOptions) : ℚ :=
  (⌈(o.capacity / o.refillRate) * o.refillInterval⌉ : ℚ) * 2

/-- Refill `calculateTokens`: add whole elapsed intervals of tokens,
capped at capacity. -/
def calculateTokens (o : RateLimiterOptions) (state : BucketState)
    (now : ℚ) : ℚ :=
  min o.capacity
    (state.tokens + (⌊(now - state.lastRefill) / o.refillInterval⌋ : ℚ) * o.refillRate)

/-- Refill `calculateLastRefill`: advance `lastRefill` by the whole
elapsed intervals. -/
def calculateLastRefill (o : RateLimiterOptions) (state : BucketState)
    (now : ℚ) : ℚ :=
  state.lastRefill + (⌊(now - state.lastRefill) / o.refillInterval⌋ : ℚ) * o.refillInterval

/-- Time `calculateResetAt`: when the bucket will be full again. -/
def calculateResetAt (o : RateLimiterOptions) (tokens lastRefill : ℚ) : ℚ :=
  if o.capacity ≤ tokens then lastRefill
  else lastRefill + (⌈(o.capacity - tokens) / o.refillRate⌉ : ℚ) * o.refillInterval

/-- Seconds `calculateRetryAfter`: time until the next refill event. -/
def calculateRetryAfter (o : RateLimiterOptions) (lastRefill now : ℚ) : ℤ :=
  max 0 ⌈(lastRefill + o.refillInterval - now) / 1000⌉

/-- Initialization `getOrCreateState`: a missing key is a fresh, full
bucket with `lastRefill = now`. -/
def getOrCreateState (o : RateLimiterOptions) (existing : Option BucketState)
    (now : ℚ) : BucketState :=
  match existing with
  | some s => s
  | none => ⟨o.capacity, now⟩

/-- Assembly `buildResult`: build the public result; `retryAfter` is
attached only when the request is not allowed. -/
def buildResult (o : RateLimiterOptions) (allowed : Bool)
    (tokens lastRefill now : ℚ) : RateLimitResult :=
  { allowed := allowed
    remaining := ⌊tokens⌋
    resetAt := calculateResetAt o tokens lastRefill
    retryAfter :=
      if allowed then none else some (calculateRetryAfter o lastRefill now) }

/-- Operation `check`: read (or initialize) the state, recompute the
refill, build the result; nothing is written. -/
def check (o : RateLimiterOptions) (m : MemoryStorage) (now : ℚ)
    (key : String) : RateLimitResult × MemoryStorage :=
  let g := MemoryStorage.get m now key
  let state := getOrCreateState o g.1 now
  let tokens := calculateTokens o state now
  let lastRefill := calculateLastRefill o state now
  (buildResult o (decide (1 ≤ tokens)) tokens lastRefill now, g.2)

/-- Decision core of `consume`: from the state the read produced, compute
the result and, when admitted, the `(state, ttlMs)` pair passed to the
store write (rejection writes nothing). -/
def consumeDecision (o : RateLimiterOptions) (existing : Option BucketState)
    (now amount : ℚ) : RateLimitResult × Option (BucketState × ℚ) :=
  let state := getOrCreateState o existing now
  let currentTokens := calculateTokens o state now
  let lastRefill := calculateLastRefill o state now
  if currentTokens < amount then
    (buildResult o false currentTokens lastRefill now, none)
  else
    let newTokens := currentTokens - amount
    (buildResult o true newTokens lastRefill now, some (⟨newTokens, lastRefill⟩, ttlMs o))

/-- Operation `consume`: read, decide, and apply the write (if any) to
the store. -/
def consume (o : RateLimiterOptions) (m : MemoryStorage) (now : ℚ)
    (key : String) (amount : ℚ) : RateLimitResult × MemoryStorage :=
  let g := MemoryStorage.get m now key
  let d := consumeDecision o g.1 now amount
  (d.1, Option.elim d.2 g.2 (fun w => MemoryStorage.set g.2 now key w.1 w.2))

/-- Iterate: `n + 1` consecutive `check` calls, threading the store. -/
def checkIter (o : RateLimiterOptions) (m : MemoryStorage) (now : ℚ)
    (key : String) : ℕ → RateLimitResult × MemoryStorage
  | 0 => check o m now key
  | n + 1 => check o (checkIter o m now key n).2 now key

/-- Sequence of `consume` calls at one instant, threading the store;
returns the results in call order. -/
def consumeSeq (o : RateLimiterOptions) (m : MemoryStorage) (now : ℚ)
    (key : String) : List ℚ → List RateLimitResult × MemoryStorage
  | [] => ([], m)
  | a :: rest =>
    let r := consume o m now key a
    let rs := consumeSeq o r.2 now key rest
    (r.1 :: rs.1, rs.2)

/-- Constructor of `TokenBucket` (and, above it, of the `RateLimiter`
facade): it stores the options and the derived TTL.  It is a total
function — the source performs no validation of the configuration. -/
def construct (o : RateLimiterOptions) : RateLimiterOptions × ℚ :=
  (o, ttlMs o)

end TokenBucket

/-! Store-level helper lemmas. -/

namespace MemoryStorage

theorem getEntry_delete_self (m : MemoryStorage) (key : String) :
    getEntry (delete m key) key = none := by
  induction m with
  | nil => rfl
  | cons p rest ih =>
    by_cases h : p.1 = key
    · simpa [delete, List.filter_cons, h] using ih
    · simp [getEntry, delete, List.filter_cons, List.find?_cons, h]

theorem getEntry_delete_ne (m : MemoryStorage) {key k : String}
    (h : k ≠ key) : getEntry (delete m key) k = getEntry m k := by
  induction m with
  | nil => rfl
  | cons p rest ih =>
    by_cases hk : p.1 = k
    · have hp : p.1 ≠ key := by rw [hk]; exact h
      simp [getEntry, delete, List.filter_cons, List.find?_cons, hk, hp, h]
    · by_cases hp : p.1 = key
      · simpa [getEntry, delete, List.filter_cons, List.find?_cons, hk, hp, h,
          Ne.symm h] using ih
      · simpa [getEntry, delete, List.filter_cons, List.find?_cons, hk, hp, h,
          Ne.symm h] using ih

/-- Observational invisibility of the lazy delete inside `get`: another
`get` at the same instant sees the same states. -/
theorem get_get_fst (m : MemoryStorage) (now : ℚ) (key k : String) :
    (get (get m now key).2 now k).1 = (get m now k).1 := by
  rcases hE : getEntry m key with _ | entry
  · simp [get, hE]
  · by_cases hx : entry.expiresAt ≤ now
    · by_cases hk : k = key
      · subst hk
        simp [get, hE, hx, getEntry_delete_self]
      · rcases hK : getEntry m k with _ | e2
        · simp [get, hE, hx, getEntry_delete_ne m hk, hK]
        · by_cases hx2 : e2.expiresAt ≤ now
          · simp [get, hE, hx, getEntry_delete_ne m hk, hK, hx2]
          · simp [get, hE, hx, getEntry_delete_ne m hk, hK, hx2]
    · simp [get, hE, hx]

/-- Round-trip: a `set` followed by a `get` at the same instant, with a
positive TTL, reads back the state just written. -/
theorem get_set_fst (m : MemoryStorage) (now : ℚ) (key : String)
    (state : BucketState) (ttlMs : ℚ) (h : 0 < ttlMs) :
    (get (set m now key state ttlMs) now key).1 = some state := by
  have hx : ¬ (now + ttlMs ≤ now) := by linarith
  simp [get, set, getEntry, List.find?_cons, hx]

end MemoryStorage

/-! Engine-level helper lemmas. -/

namespace TokenBucket

theorem buildResult_allowed (o : RateLimiterOptions) (a : Bool)
    (tokens lastRefill now : ℚ) :
    (buildResult o a tokens lastRefill now).allowed = a := rfl

theorem buildResult_remaining (o : RateLimiterOptions) (a : Bool)
    (tokens lastRefill now : ℚ) :
    (buildResult o a tokens lastRefill now).remaining = ⌊tokens⌋ := rfl

theorem buildResult_retryAfter (o : RateLimiterOptions) (a : Bool)
    (tokens lastRefill now : ℚ) :
    (buildResult o a tokens lastRefill now).retryAfter
      = if a then none else some (calculateRetryAfter o lastRefill now) := rfl

theorem check_eq (o : RateLimiterOptions) (m : MemoryStorage) (now : ℚ)
    (key : String) :
    check o m now key
      = (buildResult o
          (decide (1 ≤ calculateTokens o
            (getOrCreateState o (MemoryStorage.get m now key).1 now) now))
          (calculateTokens o
            (getOrCreateState o (MemoryStorage.get m now key).1 now) now)
          (calculateLastRefill o
            (getOrCreateState o (MemoryStorage.get m now key).1 now) now) now,
        (MemoryStorage.get m now key).2) := rfl

theorem consume_eq (o : RateLimiterOptions) (m : MemoryStorage) (now : ℚ)
    (key : String) (amount : ℚ) :
    consume o m now key amount
      = ((consumeDecision o (MemoryStorage.get m now key).1 now amount).1,
         Option.elim (consumeDecision o (MemoryStorage.get m now key).1 now amount).2
           (MemoryStorage.get m now key).2
           (fun w => MemoryStorage.set (MemoryStorage.get m now key).2 now key w.1 w.2)) := rfl

theorem consumeDecision_reject (o : RateLimiterOptions)
    (existing : Option BucketState) (now amount : ℚ)
    (h : calculateTokens o (getOrCreateState o existing now) now < amount) :
    consumeDecision o existing now amount
      = (buildResult o false
          (calculateTokens o (getOrCreateState o existing now) now)
          (calculateLastRefill o (getOrCreateState o existing now) now) now,
         none) := by
  unfold consumeDecision
  rw [if_pos h]

theorem consumeDecision_admit (o : RateLimiterOptions)
    (existing : Option BucketState) (now amount : ℚ)
    (h : ¬ calculateTokens o (getOrCreateState o existing now) now < amount) :
    consumeDecision o existing now amount
      = (buildResult o true
          (calculateTokens o (getOrCreateState o existing now) now - amount)
          (calculateLastRefill o (getOrCreateState o existing now) now) now,
         some (⟨calculateTokens o (getOrCreateState o existing now) now - amount,
                calculateLastRefill o (getOrCreateState o existing now) now⟩,
               ttlMs o)) := by
  unfold consumeDecision
  rw [if_neg h]

/-- Positivity of `calculateRetryAfter` at the recomputed `lastRefill`:
the next refill event is strictly in the future, so the rounded-up wait
is at least one second. -/
theorem calculateRetryAfter_pos (o : RateLimiterOptions) (state : BucketState)
    (now : ℚ) (hi : 0 < o.refillInterval) :
    0 < calculateRetryAfter o (calculateLastRefill o state now) now := by
  have h1 : (now - state.lastRefill) / o.refillInterval
      < (⌊(now - state.lastRefill) / o.refillInterval⌋ : ℚ) + 1 :=
    Int.lt_floor_add_one _
  have h2 : now - state.lastRefill
      < ((⌊(now - state.lastRefill) / o.refillInterval⌋ : ℚ) + 1) * o.refillInterval :=
    (div_lt_iff₀ hi).mp h1
  have h3 : 0 < calculateLastRefill o state now + o.refillInterval - now := by
    unfold calculateLastRefill
    nlinarith [h2]
  have h4 : 0 < (calculateLastRefill o state now + o.refillInterval - now) / 1000 := by
    positivity
  have h5 : 0 < ⌈(calculateLastRefill o state now + o.refillInterval - now) / 1000⌉ :=
    Int.ceil_pos.mpr h4
  unfold calculateRetryAfter
  exact lt_max_iff.mpr (Or.inr h5)

end TokenBucket

/-! Claim theorems. -/

/-- C1: for every stored `BucketState` and every time `now ≥ state.lastRefill`
(with a positive refill interval), the engine refill computation yields
`tokens(now) = min(capacity, tokens + ⌊elapsed/interval⌋·refillRate)` and
`lastRefill(now) = lastRefill + ⌊elapsed/interval⌋·interval`; a partial
interval grants no tokens, and `lastRefill` advances by a whole (nonnegative)
number of intervals. -/
theorem c1_refill_computation (o : RateLimiterOptions) (state : BucketState)
    (now : ℚ) (hle : state.lastRefill ≤ now) (hi : 0 < o.refillInterval) :
    TokenBucket.calculateTokens o state now
      = min o.capacity
          (state.tokens + (⌊(now - state.lastRefill) / o.refillInterval⌋ : ℚ) * o.refillRate) ∧
    TokenBucket.calculateLastRefill o state now
      = state.lastRefill + (⌊(now - state.lastRefill) / o.refillInterval⌋ : ℚ) * o.refillInterval ∧
    (now - state.lastRefill < o.refillInterval →
      TokenBucket.calculateTokens o state now = min o.capacity state.tokens) ∧
    ∃ k : ℤ, 0 ≤ k ∧
      TokenBucket.calculateLastRefill o state now
        = state.lastRefill + (k : ℚ) * o.refillInterval := by
  have hnn : 0 ≤ (now - state.lastRefill) / o.refillInterval :=
    div_nonneg (by linarith) hi.le
  refine ⟨rfl, rfl, ?_,
    ⟨⌊(now - state.lastRefill) / o.refillInterval⌋, Int.floor_nonneg.mpr hnn, rfl⟩⟩
  intro hpart
  have hlt : (now - state.lastRefill) / o.refillInterval < 1 :=
    (div_lt_one hi).mpr hpart
  have h0 : ⌊(now - state.lastRefill) / o.refillInterval⌋ = 0 := by
    rw [Int.floor_eq_zero_iff]
    exact ⟨hnn, hlt⟩
  unfold TokenBucket.calculateTokens
  rw [h0]
  norm_num

/-- Witness for C1 at `capacity=5, refillRate=1, refillInterval=1000`,
`state = {tokens: 2, lastRefill: 0}`, `now = 1500`. -/
theorem c1_refill_computation_witness :
    TokenBucket.calculateTokens ⟨5, 1, 1000⟩ ⟨2, 0⟩ 1500
      = min 5 (2 + (⌊((1500 : ℚ) - 0) / 1000⌋ : ℚ) * 1) ∧
    TokenBucket.calculateLastRefill ⟨5, 1, 1000⟩ ⟨2, 0⟩ 1500
      = 0 + (⌊((1500 : ℚ) - 0) / 1000⌋ : ℚ) * 1000 ∧
    ((1500 : ℚ) - 0 < 1000 →
      TokenBucket.calculateTokens ⟨5, 1, 1000⟩ ⟨2, 0⟩ 1500 = min 5 2) ∧
    (∃ k : ℤ, 0 ≤ k ∧
      TokenBucket.calculateLastRefill ⟨5, 1, 1000⟩ ⟨2, 0⟩ 1500
        = 0 + (k : ℚ) * 1000) :=
  c1_refill_computation ⟨5, 1, 1000⟩ ⟨2, 0⟩ 1500 (by norm_num) (by norm_num)

/-- C4 (code bug): construction performs no validation: with the
non-positive `capacity = 0` the constructor still succeeds and returns an
instance (here with a degenerate TTL of `0`) instead of failing with a
configuration error; nothing in the constructor rejects a non-positive
`capacity`, `refillRate` or `refillInterval`. -/
theorem c4_construct_performs_no_validation :
    TokenBucket.construct ⟨0, 1, 1000⟩ = (⟨0, 1, 1000⟩, 0) := by
  norm_num [TokenBucket.construct, TokenBucket.ttlMs]

/-- C9: for the reference store, a `set` followed by a `get` at the same
instant (with positive TTL) returns the state just written; `get` returns
absent when no entry exists, and deletes and returns absent when the
entry's `expiresAt ≤ now`. -/
theorem c9_store_roundtrip_and_expiry (m : MemoryStorage) (now : ℚ)
    (key : String) (state : BucketState) (ttlMs : ℚ) (ht : 0 < ttlMs) :
    (MemoryStorage.get (MemoryStorage.set m now key state ttlMs) now key).1
      = some state ∧
    (MemoryStorage.getEntry m key = none →
      MemoryStorage.get m now key = (none, m)) ∧
    (∀ entry, MemoryStorage.getEntry m key = some entry →
      entry.expiresAt ≤ now →
      MemoryStorage.get m now key = (none, MemoryStorage.delete m key)) := by
  refine ⟨MemoryStorage.get_set_fst m now key state ttlMs ht, ?_, ?_⟩
  · intro h
    simp [MemoryStorage.get, h]
  · intro entry hE hx
    simp [MemoryStorage.get, hE, hx]

/-- Witness for C9 on the empty store with `key = "k"`,
`state = {tokens: 3, lastRefill: 0}`, `ttl = 5000`. -/
theorem c9_store_roundtrip_and_expiry_witness :
    (MemoryStorage.get (MemoryStorage.set [] 0 "k" ⟨3, 0⟩ 5000) 0 "k").1
      = some ⟨3, 0⟩ ∧
    (MemoryStorage.getEntry [] "k" = none →
      MemoryStorage.get [] 0 "k" = (none, [])) ∧
    (∀ entry, MemoryStorage.getEntry [] "k" = some entry →
      entry.expiresAt ≤ 0 →
      MemoryStorage.get [] 0 "k" = (none, MemoryStorage.delete [] "k")) :=
  c9_store_roundtrip_and_expiry [] 0 "k" ⟨3, 0⟩ 5000 (by norm_num)

/-- C10: with amount `n = 0` the call is admitted even at a zero computed
token count, and with `n < 0` it is admitted and persists a token count
strictly larger than the computed current one, because admission is
decided solely by the comparison `tokens(now) < n`. -/
theorem c10_zero_and_negative_amounts (o : RateLimiterOptions)
    (existing : Option BucketState) (now : ℚ)
    (h0 : 0 ≤ TokenBucket.calculateTokens o
        (TokenBucket.getOrCreateState o existing now) now) :
    (TokenBucket.consumeDecision o existing now 0).1.allowed = true ∧
    ∀ n : ℚ, n < 0 →
      (TokenBucket.consumeDecision o existing now n).1.allowed = true ∧
      ∃ st ttl, (TokenBucket.consumeDecision o existing now n).2 = some (st, ttl) ∧
        TokenBucket.calculateTokens o (TokenBucket.getOrCreateState o existing now) now
          < st.tokens := by
  constructor
  · rw [TokenBucket.consumeDecision_admit o existing now 0 (not_lt.mpr h0)]
    rfl
  · intro n hn
    have hadm : ¬ TokenBucket.calculateTokens o
        (TokenBucket.getOrCreateState o existing now) now < n :=
      not_lt.mpr (hn.le.trans h0)
    rw [TokenBucket.consumeDecision_admit o existing now n hadm]
    refine ⟨rfl,
      ⟨⟨TokenBucket.calculateTokens o (TokenBucket.getOrCreateState o existing now) now - n,
        TokenBucket.calculateLastRefill o (TokenBucket.getOrCreateState o existing now) now⟩,
       TokenBucket.ttlMs o, rfl, ?_⟩⟩
    simp only
    linarith

/-- Witness for C10 at `capacity=5, refillRate=1, refillInterval=1000`
with stored state `{tokens: 0, lastRefill: 0}` at `now = 0`. -/
theorem c10_zero_and_negative_amounts_witness :
    (TokenBucket.consumeDecision ⟨5, 1, 1000⟩ (some ⟨0, 0⟩) 0 0).1.allowed = true ∧
    (∀ n : ℚ, n < 0 →
      (TokenBucket.consumeDecision ⟨5, 1, 1000⟩ (some ⟨0, 0⟩) 0 n).1.allowed = true ∧
      ∃ st ttl,
        (TokenBucket.consumeDecision ⟨5, 1, 1000⟩ (some ⟨0, 0⟩) 0 n).2 = some (st, ttl) ∧
        TokenBucket.calculateTokens ⟨5, 1, 1000⟩
          (TokenBucket.getOrCreateState ⟨5, 1, 1000⟩ (some ⟨0, 0⟩) 0) 0 < st.tokens) :=
  c10_zero_and_negative_amounts ⟨5, 1, 1000⟩ (some ⟨0, 0⟩) 0 (by
    norm_num [TokenBucket.calculateTokens, TokenBucket.getOrCreateState])

/-- C5: when the recomputed token count is below the requested amount,
`consume` rejects and performs no store write: the store it leaves behind
is exactly the store the read left (no `set` is applied), and every key
reads back the same state as before the call. -/
theorem c5_reject_writes_nothing (o : RateLimiterOptions) (m : MemoryStorage)
    (now : ℚ) (key : String) (n : ℚ)
    (h : TokenBucket.calculateTokens o
        (TokenBucket.getOrCreateState o (MemoryStorage.get m now key).1 now) now < n) :
    (TokenBucket.consume o m now key n).1.allowed = false ∧
    (TokenBucket.consume o m now key n).2 = (MemoryStorage.get m now key).2 ∧
    ∀ k, (MemoryStorage.get (TokenBucket.consume o m now key n).2 now k).1
        = (MemoryStorage.get m now k).1 := by
  have hd := TokenBucket.consumeDecision_reject o (MemoryStorage.get m now key).1 now n h
  rw [TokenBucket.consume_eq, hd]
  refine ⟨rfl, rfl, ?_⟩
  intro k
  simpa using MemoryStorage.get_get_fst m now key k

/-- Witness for C5: an exhausted bucket (`tokens = 0`) rejects a
single-token `consume` and leaves the store untouched. -/
theorem c5_reject_writes_nothing_witness :
    (TokenBucket.consume ⟨5, 1, 1000⟩ [("u", ⟨⟨0, 0⟩, 10000⟩)] 0 "u" 1).1.allowed = false ∧
    (TokenBucket.consume ⟨5, 1, 1000⟩ [("u", ⟨⟨0, 0⟩, 10000⟩)] 0 "u" 1).2
      = (MemoryStorage.get [("u", ⟨⟨0, 0⟩, 10000⟩)] 0 "u").2 ∧
    (∀ k, (MemoryStorage.get
        (TokenBucket.consume ⟨5, 1, 1000⟩ [("u", ⟨⟨0, 0⟩, 10000⟩)] 0 "u" 1).2 0 k).1
          = (MemoryStorage.get [("u", ⟨⟨0, 0⟩, 10000⟩)] 0 k).1) :=
  c5_reject_writes_nothing ⟨5, 1, 1000⟩ [("u", ⟨⟨0, 0⟩, 10000⟩)] 0 "u" 1 (by
    norm_num [TokenBucket.calculateTokens, TokenBucket.getOrCreateState,
      MemoryStorage.get, MemoryStorage.getEntry, List.find?])

namespace TokenBucket

/-- The result of `check` depends only on the state observed for the
key, not on the rest of the store. -/
theorem check_fst_congr (o : RateLimiterOptions) {m m' : MemoryStorage}
    (now : ℚ) (key : String)
    (h : (MemoryStorage.get m' now key).1 = (MemoryStorage.get m now key).1) :
    (check o m' now key).1 = (check o m now key).1 := by
  rw [check_eq, check_eq]
  simp only [h]

/-- Iterated `check` calls leave a store in which every key reads back
the same state as in the original store. -/
theorem checkIter_get_fst (o : RateLimiterOptions) (m : MemoryStorage)
    (now : ℚ) (key : String) (j : ℕ) :
    ∀ k, (MemoryStorage.get (checkIter o m now key j).2 now k).1
      = (MemoryStorage.get m now k).1 := by
  induction j with
  | zero =>
    intro k
    exact MemoryStorage.get_get_fst m now key k
  | succ j ih =>
    intro k
    have h2 : (checkIter o m now key (j + 1)).2
        = (MemoryStorage.get (checkIter o m now key j).2 now key).2 := rfl
    rw [h2, MemoryStorage.get_get_fst (checkIter o m now key j).2 now key k]
    exact ih k

end TokenBucket

/-- C6: `check` performs no store write — after a `check`, every key
reads back the same state as before; any number of consecutive `check`
calls return the result of the first; the result has
`allowed = (tokens(now) ≥ 1)` and `remaining = ⌊tokens(now)⌋`; and a
missing key is treated as a full bucket with `lastRefill = now`. -/
theorem c6_check_pure_and_stable (o : RateLimiterOptions) (m : MemoryStorage)
    (now : ℚ) (key : String) :
    (∀ k, (MemoryStorage.get (TokenBucket.check o m now key).2 now k).1
        = (MemoryStorage.get m now k).1) ∧
    (∀ j : ℕ, (TokenBucket.checkIter o m now key j).1
        = (TokenBucket.check o m now key).1) ∧
    (TokenBucket.check o m now key).1.allowed
      = decide (1 ≤ TokenBucket.calculateTokens o
          (TokenBucket.getOrCreateState o (MemoryStorage.get m now key).1 now) now) ∧
    (TokenBucket.check o m now key).1.remaining
      = ⌊TokenBucket.calculateTokens o
          (TokenBucket.getOrCreateState o (MemoryStorage.get m now key).1 now) now⌋ ∧
    ((MemoryStorage.get m now key).1 = none →
      TokenBucket.getOrCreateState o (MemoryStorage.get m now key).1 now
        = ⟨o.capacity, now⟩) := by
  refine ⟨?_, ?_, rfl, rfl, ?_⟩
  · intro k
    exact MemoryStorage.get_get_fst m now key k
  · intro j
    cases j with
    | zero => rfl
    | succ j =>
      exact TokenBucket.check_fst_congr o now key
        (TokenBucket.checkIter_get_fst o m now key j key)
  · intro h
    simp [TokenBucket.getOrCreateState, h]

namespace TokenBucket

/-- In a result built at the recomputed `lastRefill`, `retryAfter` is
present iff the request was blocked, and is positive when present. -/
theorem buildResult_retryAfter_spec (o : RateLimiterOptions) (a : Bool)
    (tokens : ℚ) (state : BucketState) (now : ℚ) (hi : 0 < o.refillInterval) :
    ((buildResult o a tokens (calculateLastRefill o state now) now).retryAfter.isSome
      ↔ (buildResult o a tokens (calculateLastRefill o state now) now).allowed = false) ∧
    ∀ t, (buildResult o a tokens (calculateLastRefill o state now) now).retryAfter
        = some t → 0 < t := by
  cases a with
  | false =>
    refine ⟨by simp [buildResult], ?_⟩
    intro t ht
    simp [buildResult] at ht
    rw [← ht]
    exact calculateRetryAfter_pos o state now hi
  | true =>
    simp [buildResult]

end TokenBucket

/-- C7: in every result returned by `check` or `consume`, the
`retryAfter` field is present iff `allowed = false`, and whenever present
it is strictly positive. -/
theorem c7_retryAfter_iff_blocked_and_pos (o : RateLimiterOptions)
    (m : MemoryStorage) (now : ℚ) (key : String) (n : ℚ)
    (hi : 0 < o.refillInterval) :
    ((TokenBucket.check o m now key).1.retryAfter.isSome
        ↔ (TokenBucket.check o m now key).1.allowed = false) ∧
    (∀ t, (TokenBucket.check o m now key).1.retryAfter = some t → 0 < t) ∧
    ((TokenBucket.consume o m now key n).1.retryAfter.isSome
        ↔ (TokenBucket.consume o m now key n).1.allowed = false) ∧
    (∀ t, (TokenBucket.consume o m now key n).1.retryAfter = some t → 0 < t) := by
  have hcheck := TokenBucket.buildResult_retryAfter_spec o
    (decide (1 ≤ TokenBucket.calculateTokens o
      (TokenBucket.getOrCreateState o (MemoryStorage.get m now key).1 now) now))
    (TokenBucket.calculateTokens o
      (TokenBucket.getOrCreateState o (MemoryStorage.get m now key).1 now) now)
    (TokenBucket.getOrCreateState o (MemoryStorage.get m now key).1 now) now hi
  refine ⟨hcheck.1, hcheck.2, ?_⟩
  rw [TokenBucket.consume_eq]
  by_cases h : TokenBucket.calculateTokens o
      (TokenBucket.getOrCreateState o (MemoryStorage.get m now key).1 now) now < n
  · rw [TokenBucket.consumeDecision_reject o (MemoryStorage.get m now key).1 now n h]
    have hb := TokenBucket.buildResult_retryAfter_spec o false
      (TokenBucket.calculateTokens o
        (TokenBucket.getOrCreateState o (MemoryStorage.get m now key).1 now) now)
      (TokenBucket.getOrCreateState o (MemoryStorage.get m now key).1 now) now hi
    exact ⟨hb.1, hb.2⟩
  · rw [TokenBucket.consumeDecision_admit o (MemoryStorage.get m now key).1 now n h]
    have hb := TokenBucket.buildResult_retryAfter_spec o true
      (TokenBucket.calculateTokens o
        (TokenBucket.getOrCreateState o (MemoryStorage.get m now key).1 now) now - n)
      (TokenBucket.getOrCreateState o (MemoryStorage.get m now key).1 now) now hi
    exact ⟨hb.1, hb.2⟩

/-- Witness for C7 at `capacity=5, refillRate=1, refillInterval=1000` on
the empty store at `now = 0`, requesting one token. -/
theorem c7_retryAfter_iff_blocked_and_pos_witness :
    ((TokenBucket.check ⟨5, 1, 1000⟩ [] 0 "u").1.retryAfter.isSome
        ↔ (TokenBucket.check ⟨5, 1, 1000⟩ [] 0 "u").1.allowed = false) ∧
    (∀ t, (TokenBucket.check ⟨5, 1, 1000⟩ [] 0 "u").1.retryAfter = some t → 0 < t) ∧
    ((TokenBucket.consume ⟨5, 1, 1000⟩ [] 0 "u" 1).1.retryAfter.isSome
        ↔ (TokenBucket.consume ⟨5, 1, 1000⟩ [] 0 "u" 1).1.allowed = false) ∧
    (∀ t, (TokenBucket.consume ⟨5, 1, 1000⟩ [] 0 "u" 1).1.retryAfter = some t → 0 < t) :=
  c7_retryAfter_iff_blocked_and_pos ⟨5, 1, 1000⟩ [] 0 "u" 1 (by norm_num)

/-- C3 counterexample: with `capacity = 1`, `refillRate = 2/5`,
`refillInterval = 1000`, an admitted `consume` passes
`TTL = ceil((capacity/refillRate)·refillInterval)·2 = 5000` to the store
write, which differs from the claimed
`2·ceil(capacity/refillRate)·refillInterval = 6000`. -/
theorem c3_ttl_counterexample :
    (TokenBucket.consumeDecision ⟨1, 2/5, 1000⟩ none 0 1).2
      = some (⟨0, 0⟩, 5000) ∧
    (5000 : ℚ) ≠ 2 * (⌈(1 : ℚ) / (2/5)⌉ : ℚ) * 1000 := by
  constructor
  · norm_num [TokenBucket.consumeDecision, TokenBucket.getOrCreateState,
      TokenBucket.calculateTokens, TokenBucket.calculateLastRefill, TokenBucket.ttlMs]
  · have h3 : (⌈(1 : ℚ) / (2/5)⌉ : ℤ) = 3 := by
      rw [show (1 : ℚ) / (2/5) = 5/2 by norm_num, Int.ceil_eq_iff]
      norm_num
    rw [h3]
    norm_num

/-- C3 amended: the TTL passed to every store write performed by
`consume` equals `ceil((capacity / refillRate) · refillInterval) · 2`
milliseconds — the ceiling is applied to the whole product, not to
`capacity / refillRate` alone. -/
theorem c3_ttl_of_every_write (o : RateLimiterOptions)
    (existing : Option BucketState) (now n : ℚ) (st : BucketState) (ttl : ℚ)
    (hw : (TokenBucket.consumeDecision o existing now n).2 = some (st, ttl)) :
    ttl = (⌈(o.capacity / o.refillRate) * o.refillInterval⌉ : ℚ) * 2 := by
  by_cases h : TokenBucket.calculateTokens o
      (TokenBucket.getOrCreateState o existing now) now < n
  · rw [TokenBucket.consumeDecision_reject o existing now n h] at hw
    cases hw
  · rw [TokenBucket.consumeDecision_admit o existing now n h] at hw
    simp only [Option.some_inj, Prod.mk.injEq] at hw
    rw [← hw.2]
    rfl

/-- Witness for C3 amended: the first admitted `consume` at
`capacity=5, refillRate=1, refillInterval=1000` writes with TTL 10000. -/
theorem c3_ttl_of_every_write_witness :
    (10000 : ℚ) = (⌈((5 : ℚ) / 1) * 1000⌉ : ℚ) * 2 :=
  c3_ttl_of_every_write ⟨5, 1, 1000⟩ none 0 1 ⟨4, 0⟩ 10000 (by
    norm_num [TokenBucket.consumeDecision, TokenBucket.getOrCreateState,
      TokenBucket.calculateTokens, TokenBucket.calculateLastRefill, TokenBucket.ttlMs])

/-- C8 counterexample: from a fresh full bucket with `capacity = 5`,
`consume` with the (unvalidated) amount `-1` persists a state with
`tokens = 6 > capacity`, so the invariant `0 ≤ tokens ≤ capacity` does
not hold for every requested token amount. -/
theorem c8_invariant_counterexample :
    (TokenBucket.consumeDecision ⟨5, 1, 1000⟩ none 0 (-1)).2
      = some (⟨6, 0⟩, 10000) ∧ ¬ ((6 : ℚ) ≤ 5) := by
  constructor
  · norm_num [TokenBucket.consumeDecision, TokenBucket.getOrCreateState,
      TokenBucket.calculateTokens, TokenBucket.calculateLastRefill, TokenBucket.ttlMs]
  · norm_num

/-- C8 amended: for every nonnegative requested amount, every state that
`consume` writes to the store satisfies `0 ≤ tokens ≤ capacity`. -/
theorem c8_persisted_tokens_in_range (o : RateLimiterOptions)
    (existing : Option BucketState) (now n : ℚ) (st : BucketState) (ttl : ℚ)
    (hn : 0 ≤ n)
    (hw : (TokenBucket.consumeDecision o existing now n).2 = some (st, ttl)) :
    0 ≤ st.tokens ∧ st.tokens ≤ o.capacity := by
  by_cases h : TokenBucket.calculateTokens o
      (TokenBucket.getOrCreateState o existing now) now < n
  · rw [TokenBucket.consumeDecision_reject o existing now n h] at hw
    cases hw
  · rw [TokenBucket.consumeDecision_admit o existing now n h] at hw
    simp only [Option.some_inj, Prod.mk.injEq] at hw
    rw [← hw.1]
    have hle : TokenBucket.calculateTokens o
        (TokenBucket.getOrCreateState o existing now) now ≤ o.capacity := by
      unfold TokenBucket.calculateTokens
      exact min_le_left _ _
    have hge := not_lt.mp h
    constructor
    · simp only
      linarith
    · simp only
      linarith

/-- Witness for C8 amended: the first single-token `consume` at
`capacity=5, refillRate=1, refillInterval=1000` writes `tokens = 4`,
inside the range. -/
theorem c8_persisted_tokens_in_range_witness :
    (0 : ℚ) ≤ 4 ∧ (4 : ℚ) ≤ 5 :=
  c8_persisted_tokens_in_range ⟨5, 1, 1000⟩ none 0 1 ⟨4, 0⟩ 10000 (by norm_num)
    (by norm_num [TokenBucket.consumeDecision, TokenBucket.getOrCreateState,
      TokenBucket.calculateTokens, TokenBucket.calculateLastRefill, TokenBucket.ttlMs])

/-- C2: with `capacity=5, refillRate=1, refillInterval=1000`, starting
from a key absent from the store at `t = 0` with no time advance between
calls, five `consume(key)` calls are allowed with `remaining` equal to
4, 3, 2, 1, 0 in that order, and a sixth returns `allowed = false`,
`remaining = 0` and a positive integer `retryAfter`. -/
theorem c2_burst_of_five_then_reject :
    ((TokenBucket.consumeSeq ⟨5, 1, 1000⟩ [] 0 "u" [1, 1, 1, 1, 1, 1]).1.map
        (fun r => (r.allowed, r.remaining)))
      = [(true, 4), (true, 3), (true, 2), (true, 1), (true, 0), (false, 0)] ∧
    ∃ t : ℤ,
      ((TokenBucket.consumeSeq ⟨5, 1, 1000⟩ [] 0 "u" [1, 1, 1, 1, 1, 1]).1.map
          (fun r => r.retryAfter))
        = [none, none, none, none, none, some t] ∧ 0 < t := by
  have g0 : MemoryStorage.get [] 0 "u" = (none, []) := by
    simp [MemoryStorage.get, MemoryStorage.getEntry]
  have d1 : TokenBucket.consumeDecision ⟨5, 1, 1000⟩ none 0 1
      = (⟨true, 4, 1000, none⟩, some (⟨4, 0⟩, 10000)) := by
    norm_num [TokenBucket.consumeDecision, TokenBucket.getOrCreateState,
      TokenBucket.calculateTokens, TokenBucket.calculateLastRefill,
      TokenBucket.buildResult, TokenBucket.calculateResetAt,
      TokenBucket.calculateRetryAfter, TokenBucket.ttlMs]
  have s1 : TokenBucket.consume ⟨5, 1, 1000⟩ [] 0 "u" 1
      = (⟨true, 4, 1000, none⟩, [("u", ⟨⟨4, 0⟩, 10000⟩)]) := by
    simp [TokenBucket.consume, g0, d1, MemoryStorage.set, MemoryStorage.delete]
  have g1 : MemoryStorage.get [("u", ⟨⟨4, 0⟩, 10000⟩)] 0 "u"
      = (some ⟨4, 0⟩, [("u", ⟨⟨4, 0⟩, 10000⟩)]) := by
    norm_num [MemoryStorage.get, MemoryStorage.getEntry, List.find?]
  have d2 : TokenBucket.consumeDecision ⟨5, 1, 1000⟩ (some ⟨4, 0⟩) 0 1
      = (⟨true, 3, 2000, none⟩, some (⟨3, 0⟩, 10000)) := by
    norm_num [TokenBucket.consumeDecision, TokenBucket.getOrCreateState,
      TokenBucket.calculateTokens, TokenBucket.calculateLastRefill,
      TokenBucket.buildResult, TokenBucket.calculateResetAt,
      TokenBucket.calculateRetryAfter, TokenBucket.ttlMs]
  have s2 : TokenBucket.consume ⟨5, 1, 1000⟩ [("u", ⟨⟨4, 0⟩, 10000⟩)] 0 "u" 1
      = (⟨true, 3, 2000, none⟩, [("u", ⟨⟨3, 0⟩, 10000⟩)]) := by
    simp [TokenBucket.consume, g1, d2, MemoryStorage.set, MemoryStorage.delete,
      List.filter]
  have g2 : MemoryStorage.get [("u", ⟨⟨3, 0⟩, 10000⟩)] 0 "u"
      = (some ⟨3, 0⟩, [("u", ⟨⟨3, 0⟩, 10000⟩)]) := by
    norm_num [MemoryStorage.get, MemoryStorage.getEntry, List.find?]
  have d3 : TokenBucket.consumeDecision ⟨5, 1, 1000⟩ (some ⟨3, 0⟩) 0 1
      = (⟨true, 2, 3000, none⟩, some (⟨2, 0⟩, 10000)) := by
    norm_num [TokenBucket.consumeDecision, TokenBucket.getOrCreateState,
      TokenBucket.calculateTokens, TokenBucket.calculateLastRefill,
      TokenBucket.buildResult, TokenBucket.calculateResetAt,
      TokenBucket.calculateRetryAfter, TokenBucket.ttlMs]
  have s3 : TokenBucket.consume ⟨5, 1, 1000⟩ [("u", ⟨⟨3, 0⟩, 10000⟩)] 0 "u" 1
      = (⟨true, 2, 3000, none⟩, [("u", ⟨⟨2, 0⟩, 10000⟩)]) := by
    simp [TokenBucket.consume, g2, d3, MemoryStorage.set, MemoryStorage.delete,
      List.filter]
  have g3 : MemoryStorage.get [("u", ⟨⟨2, 0⟩, 10000⟩)] 0 "u"
      = (some ⟨2, 0⟩, [("u", ⟨⟨2, 0⟩, 10000⟩)]) := by
    norm_num [MemoryStorage.get, MemoryStorage.getEntry, List.find?]
  have d4 : TokenBucket.consumeDecision ⟨5, 1, 1000⟩ (some ⟨2, 0⟩) 0 1
      = (⟨true, 1, 4000, none⟩, some (⟨1, 0⟩, 10000)) := by
    norm_num [TokenBucket.consumeDecision, TokenBucket.getOrCreateState,
      TokenBucket.calculateTokens, TokenBucket.calculateLastRefill,
      TokenBucket.buildResult, TokenBucket.calculateResetAt,
      TokenBucket.calculateRetryAfter, TokenBucket.ttlMs]
  have s4 : TokenBucket.consume ⟨5, 1, 1000⟩ [("u", ⟨⟨2, 0⟩, 10000⟩)] 0 "u" 1
      = (⟨true, 1, 4000, none⟩, [("u", ⟨⟨1, 0⟩, 10000⟩)]) := by
    simp [TokenBucket.consume, g3, d4, MemoryStorage.set, MemoryStorage.delete,
      List.filter]
  have g4 : MemoryStorage.get [("u", ⟨⟨1, 0⟩, 10000⟩)] 0 "u"
      = (some ⟨1, 0⟩, [("u", ⟨⟨1, 0⟩, 10000⟩)]) := by
    norm_num [MemoryStorage.get, MemoryStorage.getEntry, List.find?]
  have d5 : TokenBucket.consumeDecision ⟨5, 1, 1000⟩ (some ⟨1, 0⟩) 0 1
      = (⟨true, 0, 5000, none⟩, some (⟨0, 0⟩, 10000)) := by
    norm_num [TokenBucket.consumeDecision, TokenBucket.getOrCreateState,
      TokenBucket.calculateTokens, TokenBucket.calculateLastRefill,
      TokenBucket.buildResult, TokenBucket.calculateResetAt,
      TokenBucket.calculateRetryAfter, TokenBucket.ttlMs]
  have s5 : TokenBucket.consume ⟨5, 1, 1000⟩ [("u", ⟨⟨1, 0⟩, 10000⟩)] 0 "u" 1
      = (⟨true, 0, 5000, none⟩, [("u", ⟨⟨0, 0⟩, 10000⟩)]) := by
    simp [TokenBucket.consume, g4, d5, MemoryStorage.set, MemoryStorage.delete,
      List.filter]
  have g5 : MemoryStorage.get [("u", ⟨⟨0, 0⟩, 10000⟩)] 0 "u"
      = (some ⟨0, 0⟩, [("u", ⟨⟨0, 0⟩, 10000⟩)]) := by
    norm_num [MemoryStorage.get, MemoryStorage.getEntry, List.find?]
  have d6 : TokenBucket.consumeDecision ⟨5, 1, 1000⟩ (some ⟨0, 0⟩) 0 1
      = (⟨false, 0, 5000, some 1⟩, none) := by
    norm_num [TokenBucket.consumeDecision, TokenBucket.getOrCreateState,
      TokenBucket.calculateTokens, TokenBucket.calculateLastRefill,
      TokenBucket.buildResult, TokenBucket.calculateResetAt,
      TokenBucket.calculateRetryAfter, TokenBucket.ttlMs]
  have s6 : TokenBucket.consume ⟨5, 1, 1000⟩ [("u", ⟨⟨0, 0⟩, 10000⟩)] 0 "u" 1
      = (⟨false, 0, 5000, some 1⟩, [("u", ⟨⟨0, 0⟩, 10000⟩)]) := by
    simp [TokenBucket.consume, g5, d6, MemoryStorage.set, MemoryStorage.delete,
      List.filter]
  have hseq : (TokenBucket.consumeSeq ⟨5, 1, 1000⟩ [] 0 "u" [1, 1, 1, 1, 1, 1]).1
      = [⟨true, 4, 1000, none⟩, ⟨true, 3, 2000, none⟩, ⟨true, 2, 3000, none⟩,
         ⟨true, 1, 4000, none⟩, ⟨true, 0, 5000, none⟩, ⟨false, 0, 5000, some 1⟩] := by
    simp [TokenBucket.consumeSeq, s1, s2, s3, s4, s5, s6]
  rw [hseq]
  exact ⟨by norm_num, 1, by norm_num, by norm_num⟩
